import Mathlib

/-!
Verification of the durable event outbox and cloud synchronization engine
implemented in src/backend/cloudSync.js (class CloudSyncManager).

The JavaScript code is shallowly embedded: the sqlite sync_queue table is a
list of rows in insertion (rowid) order, the in-memory manager flags are
fields of one state record, and the nondeterministic transport (axios call or
the demo simulation, both wrapped in one try/catch) is abstracted by an
explicit TransportOutcome parameter describing which way the remote call went.
Wall-clock time is passed in as an explicit parameter; the 30 second
setTimeout that restores isOnline is recorded as the cooldownTimerSet flag.
-/

namespace CloudSync

/-- Values of the sync_status column of the sync_queue table. -/
inductive SyncStatus where
  | pending
  | synced
  | failed
  deriving DecidableEq, Repr

/-- A row of the sync_queue table. created_at is the insertion instant, as a
number, standing for the CURRENT_TIMESTAMP default of the column. -/
structure EventRecord where
  id : Nat
  user_id : String
  event_type : String
  data : String
  timestamp : Nat
  sync_status : SyncStatus
  retry_count : Nat
  created_at : Nat
  deriving DecidableEq, Repr

/-- The static part of CLOUD_CONFIG used by the sync logic. -/
structure Config where
  syncInterval : Nat
  batchSize : Nat
  retryAttempts : Nat
  timeout : Nat
  deriving DecidableEq, Repr

/-- CLOUD_CONFIG from cloudSync.js. -/
def CLOUD_CONFIG : Config :=
  { syncInterval := 2000, batchSize := 100, retryAttempts := 3, timeout := 5000 }

/-- A row of the sync_logs table (columns relevant to the sync logic). -/
structure SyncLogEntry where
  batch_id : String
  records_synced : Nat
  success : Bool
  error_message : Option String
  sync_duration : Nat
  deriving DecidableEq, Repr

/-- The mutable state of the CloudSyncManager instance together with the
sync_queue and sync_logs tables. nextId is the next AUTOINCREMENT rowid. -/
structure SyncState where
  queue : List EventRecord
  logs : List SyncLogEntry
  isOnline : Bool
  syncInProgress : Bool
  lastSyncTime : Nat
  cooldownTimerSet : Bool
  nextId : Nat
  deriving DecidableEq, Repr

/-- State of a freshly constructed CloudSyncManager over empty tables. -/
def initialState : SyncState :=
  { queue := [], logs := [], isOnline := true, syncInProgress := false,
    lastSyncTime := 0, cooldownTimerSet := false, nextId := 1 }

/-- The argument object passed to addToSyncQueue and syncData. A field value
of none models a missing (undefined) or empty-string property, both falsy in
JavaScript. serializable is false when JSON.stringify of the object throws
(for example on a circular structure); serialized is its output otherwise. -/
structure EventData where
  userId : Option String
  eventType : Option String
  serializable : Bool
  serialized : String
  deriving DecidableEq, Repr

/-- JavaScript `v || dflt` for a string-or-undefined value: undefined and the
empty string are falsy and select the default. -/
def jsOr (v : Option String) (dflt : String) : String :=
  match v with
  | none => dflt
  | some s => if s = "" then dflt else s

/-- JSON.stringify on the event object: none when it throws. -/
def jsonStringify (d : EventData) : Option String :=
  if d.serializable then some d.serialized else none

/-- addToSyncQueue: stringify the payload (an exception here rejects before
any write reaches the database), then INSERT one row with sync_status pending
and retry_count 0, resolving with the fresh rowid. -/
def addToSyncQueue (st : SyncState) (now : Nat) (d : EventData) :
    SyncState × Except String Nat :=
  match jsonStringify d with
  | none => (st, Except.error "TypeError: payload is not serializable")
  | some s =>
      let r : EventRecord :=
        { id := st.nextId, user_id := jsOr d.userId "system",
          event_type := jsOr d.eventType "activity", data := s,
          timestamp := now, sync_status := SyncStatus.pending,
          retry_count := 0, created_at := now }
      ({ st with queue := st.queue ++ [r], nextId := st.nextId + 1 },
       Except.ok st.nextId)

/-- The row filter of getPendingRecords:
sync_status = pending AND retry_count < CLOUD_CONFIG.retryAttempts. -/
def eligible (r : EventRecord) : Bool :=
  r.sync_status = SyncStatus.pending && r.retry_count < CLOUD_CONFIG.retryAttempts

/-- One step of a stable insertion into a list sorted by created_at: the new
row goes before the first row whose created_at is not smaller. -/
def insertByCreatedAt (r : EventRecord) : List EventRecord → List EventRecord
  | [] => [r]
  | x :: xs =>
      if x.created_at < r.created_at then x :: insertByCreatedAt r xs
      else r :: x :: xs

/-- Stable sort by ascending created_at, modelling ORDER BY created_at ASC
over rows visited in rowid order. -/
def sortByCreatedAt : List EventRecord → List EventRecord
  | [] => []
  | x :: xs => insertByCreatedAt x (sortByCreatedAt xs)

/-- getPendingRecords: SELECT rows with the eligible filter, ORDER BY
created_at ASC, LIMIT limit. -/
def getPendingRecords (st : SyncState) (limit : Nat) : List EventRecord :=
  (sortByCreatedAt (st.queue.filter eligible)).take limit

/-- markRecordsSynced: UPDATE sync_queue SET sync_status = synced for the
rows whose id is in recordIds. -/
def markRecordsSynced (st : SyncState) (recordIds : List Nat) : SyncState :=
  { st with queue := st.queue.map fun r =>
      if r.id ∈ recordIds then { r with sync_status := SyncStatus.synced } else r }

/-- handleSyncFailure: UPDATE sync_queue SET retry_count = retry_count + 1,
sync_status = failed for the rows whose id is in the ids of records. -/
def handleSyncFailure (st : SyncState) (recordIds : List Nat) : SyncState :=
  { st with queue := st.queue.map fun r =>
      if r.id ∈ recordIds then
        { r with retry_count := r.retry_count + 1,
                 sync_status := SyncStatus.failed }
      else r }

/-- logSync: INSERT one row into sync_logs. -/
def logSync (st : SyncState) (batchId : String) (recordsCount : Nat)
    (success : Bool) (errorMessage : Option String) (duration : Nat) :
    SyncState :=
  { st with logs := st.logs ++
      [{ batch_id := batchId, records_synced := recordsCount,
         success := success, error_message := errorMessage,
         sync_duration := duration }] }

/-- How the remote call inside sendToCloud resolves: a success (the axios
post resolves, or the demo simulation returns), an HTTP error response from a
reachable endpoint (error.response is set), a connectivity failure with no
response (error.request is set), or any other thrown error (for example the
simulated demo failure). -/
inductive TransportOutcome where
  | success
  | httpError (status : Nat) (message : Option String)
  | networkError
  | otherError (message : String)
  deriving DecidableEq, Repr

/-- Whether the remote call resolved successfully. -/
def TransportOutcome.isSuccess : TransportOutcome → Bool
  | TransportOutcome.success => true
  | _ => false

/-- The result object sendToCloud returns. -/
structure SendResult where
  success : Bool
  error : Option String
  deriving DecidableEq, Repr

/-- sendToCloud: on a resolved call return success true and touch no state;
in the catch block set isOnline to false, schedule the 30 second timer that
sets it back, and map the error to a message by its shape. -/
def sendToCloud (st : SyncState) (outcome : TransportOutcome) :
    SendResult × SyncState :=
  match outcome with
  | TransportOutcome.success => ({ success := true, error := none }, st)
  | TransportOutcome.httpError status message =>
      ({ success := false,
         error := some ("HTTP " ++ toString status ++ ": " ++
           jsOr message "Unknown error") },
       { st with isOnline := false, cooldownTimerSet := true })
  | TransportOutcome.networkError =>
      ({ success := false, error := some "Network error - offline mode activated" },
       { st with isOnline := false, cooldownTimerSet := true })
  | TransportOutcome.otherError message =>
      ({ success := false, error := some message },
       { st with isOnline := false, cooldownTimerSet := true })

/-- The result object performSync returns. -/
structure SyncResult where
  success : Bool
  message : Option String
  error : Option String
  deriving DecidableEq, Repr

/-- performSync: refuse to reenter while syncInProgress; otherwise select a
batch of at most CLOUD_CONFIG.batchSize eligible rows, stop when it is empty,
send it, mark every row in it synced on success or failed with retry_count
incremented on failure, append one sync_logs row, record lastSyncTime and
clear syncInProgress. now stands for the Date.now readings of the attempt;
the elapsed duration of the attempt is not modelled and logged as 0. -/
def performSync (st : SyncState) (outcome : TransportOutcome) (now : Nat) :
    SyncResult × SyncState :=
  if st.syncInProgress then
    ({ success := true, message := some "Sync already in progress", error := none },
     st)
  else
    let st1 := { st with syncInProgress := true }
    let batchId := "batch_" ++ toString now
    let pendingRecords := getPendingRecords st1 CLOUD_CONFIG.batchSize
    if pendingRecords.isEmpty then
      ({ success := true, message := some "No data to sync", error := none },
       { st1 with syncInProgress := false })
    else
      let sent := sendToCloud st1 outcome
      let st3 :=
        if sent.1.success then
          logSync (markRecordsSynced sent.2 (pendingRecords.map EventRecord.id))
            batchId pendingRecords.length true none 0
        else
          logSync (handleSyncFailure sent.2 (pendingRecords.map EventRecord.id))
            batchId 0 false sent.1.error 0
      ({ success := sent.1.success, message := none, error := sent.1.error },
       { st3 with lastSyncTime := now, syncInProgress := false })

/-- The result object syncData returns. -/
structure SyncDataResult where
  success : Bool
  queued : Bool
  error : Option String
  deriving DecidableEq, Repr

/-- syncData: enqueue through addToSyncQueue; a rejection there is caught and
reported as success false; otherwise, when online and no sync is in progress,
run performSync immediately, and report success true, queued true. -/
def syncData (st : SyncState) (now : Nat) (d : EventData)
    (outcome : TransportOutcome) : SyncDataResult × SyncState :=
  match addToSyncQueue st now d with
  | (st1, Except.error e) =>
      ({ success := false, queued := false, error := some e }, st1)
  | (st1, Except.ok _) =>
      let st2 :=
        if st1.isOnline && !st1.syncInProgress then (performSync st1 outcome now).2
        else st1
      ({ success := true, queued := true, error := none }, st2)

/-! Concrete states used to exercise the model. -/

/-- A well-formed event argument with every property present. -/
def demoEvent : EventData :=
  { userId := some "student_1", eventType := some "app_launch",
    serializable := true, serialized := "payload" }

/-- The state after enqueueing one event into a fresh manager. -/
def stOne : SyncState := (addToSyncQueue initialState 5 demoEvent).1

/-- The state after that one record went through a failed dispatch. -/
def stAfterFailure : SyncState :=
  (performSync stOne TransportOutcome.networkError 6).2

/-- A pending row with the given id and capture instant. -/
def mkPending (i t : Nat) : EventRecord :=
  { id := i, user_id := "student_1", event_type := "app_launch", data := "d",
    timestamp := t, sync_status := SyncStatus.pending, retry_count := 0,
    created_at := t }

/-- Five pending rows awaiting dispatch. -/
def st5 : SyncState :=
  { initialState with
      queue := [mkPending 1 10, mkPending 2 11, mkPending 3 11,
                mkPending 4 12, mkPending 5 12],
      nextId := 6 }

/-- st5 after the first batch of two was marked synced. -/
def st5b : SyncState :=
  markRecordsSynced st5 ((getPendingRecords st5 2).map EventRecord.id)

/-- st5b after the second batch of two was marked synced. -/
def st5c : SyncState :=
  markRecordsSynced st5b ((getPendingRecords st5b 2).map EventRecord.id)

/-- st5c after the third batch was marked synced: the queue is drained. -/
def st5d : SyncState :=
  markRecordsSynced st5c ((getPendingRecords st5c 2).map EventRecord.id)

/-- A row whose retry_count has reached the retryAttempts ceiling. -/
def recExhausted : EventRecord :=
  { id := 9, user_id := "student_1", event_type := "app_launch", data := "d",
    timestamp := 3, sync_status := SyncStatus.pending, retry_count := 3,
    created_at := 3 }

/-- An event argument whose kind property is the empty string. -/
def dEmptyKind : EventData :=
  { userId := some "student_1", eventType := some "",
    serializable := true, serialized := "x" }

/-- An event argument with no userId and no type whose payload cannot be
serialized. -/
def dBad : EventData :=
  { userId := none, eventType := none, serializable := false, serialized := "" }

/-- An event argument with no userId and no type and a serializable payload. -/
def dDefaults : EventData :=
  { userId := none, eventType := none, serializable := true, serialized := "x" }

/-! Helper lemmas about the stable sort. -/

theorem insertByCreatedAt_cons (r x : EventRecord) (xs : List EventRecord)
    (h : ¬ x.created_at < r.created_at) :
    insertByCreatedAt r (x :: xs) = r :: x :: xs := by
  simp [insertByCreatedAt, h]

theorem sortByCreatedAt_of_sorted (l : List EventRecord)
    (h : l.Pairwise fun a b => a.created_at ≤ b.created_at) :
    sortByCreatedAt l = l := by
  induction l with
  | nil => rfl
  | cons x xs ih =>
      rw [sortByCreatedAt, ih (List.Pairwise.of_cons h)]
      cases xs with
      | nil => rfl
      | cons y ys =>
          have hy : x.created_at ≤ y.created_at :=
            (List.pairwise_cons.mp h).1 y (by simp)
          exact insertByCreatedAt_cons x y ys (by omega)

theorem mem_insertByCreatedAt (r x : EventRecord) (l : List EventRecord) :
    x ∈ insertByCreatedAt r l ↔ x = r ∨ x ∈ l := by
  induction l with
  | nil => simp [insertByCreatedAt]
  | cons y ys ih =>
      simp only [insertByCreatedAt]
      split
      · rw [List.mem_cons, ih, List.mem_cons]
        tauto
      · simp only [List.mem_cons]

theorem mem_sortByCreatedAt (x : EventRecord) (l : List EventRecord) :
    x ∈ sortByCreatedAt l ↔ x ∈ l := by
  induction l with
  | nil => simp [sortByCreatedAt]
  | cons y ys ih => simp [sortByCreatedAt, mem_insertByCreatedAt, ih]

/-! Claim theorems. -/

/-- Claim C1: the claim states that a record marked failed with retry_count
below the ceiling remains eligible for later batches. The code disagrees:
getPendingRecords filters on sync_status = pending only, while
handleSyncFailure sets sync_status to failed, so a record that failed once
(retry_count 1, below retryAttempts 3) is never selected again. This theorem
evaluates the code at that failing input: after one failed dispatch of a
single record, the record is failed with retry_count 1 strictly below the
ceiling, yet the next batch selection is empty. -/
theorem failedRecordNotReselected :
    (stAfterFailure.queue.map fun r => (r.sync_status, r.retry_count)) =
      [(SyncStatus.failed, 1)] ∧
    (1 : Nat) < CLOUD_CONFIG.retryAttempts ∧
    getPendingRecords stAfterFailure CLOUD_CONFIG.batchSize = [] := by
  decide

/-- Claim C2: a call to performSync while syncInProgress is set returns the
report Sync already in progress and leaves the whole state, in particular
every record, untouched; the early return happens before any selection and
before the transport is contacted. -/
theorem performSyncReentryNoop (st : SyncState) (outcome : TransportOutcome)
    (now : Nat) (h : st.syncInProgress = true) :
    performSync st outcome now =
      ({ success := true, message := some "Sync already in progress",
         error := none }, st) := by
  simp [performSync, h]

/-- Witness for claim C2 at a concrete busy state. -/
theorem performSyncReentryNoopWitness :
    performSync { stOne with syncInProgress := true } TransportOutcome.success 9 =
      ({ success := true, message := some "Sync already in progress",
         error := none }, { stOne with syncInProgress := true }) :=
  performSyncReentryNoop { stOne with syncInProgress := true }
    TransportOutcome.success 9 rfl

/-- Claim C3: in every store state, a record whose retry_count has reached
CLOUD_CONFIG.retryAttempts is excluded from batch selection, whatever the
limit, because the getPendingRecords filter demands
retry_count < retryAttempts. -/
theorem exhaustedNeverSelected (st : SyncState) (limit : Nat)
    (r : EventRecord) (h : CLOUD_CONFIG.retryAttempts ≤ r.retry_count) :
    r ∉ getPendingRecords st limit := by
  intro hmem
  have h1 : r ∈ sortByCreatedAt (st.queue.filter eligible) :=
    List.take_subset _ _ hmem
  have h2 : r ∈ st.queue.filter eligible := (mem_sortByCreatedAt r _).mp h1
  have h3 := List.of_mem_filter h2
  simp only [eligible, Bool.and_eq_true, decide_eq_true_eq] at h3
  omega

/-- Witness for claim C3: a record at the retry ceiling in a one-record
store is not selected. -/
theorem exhaustedNeverSelectedWitness :
    recExhausted ∉
      getPendingRecords { initialState with queue := [recExhausted], nextId := 10 } 100 :=
  exhaustedNeverSelected { initialState with queue := [recExhausted], nextId := 10 }
    100 recExhausted (by decide)

/-- Claim C8: batch selection never returns more than the limit passed to
getPendingRecords (performSync passes CLOUD_CONFIG.batchSize), and with a
limit of 2 over five pending records the drain takes exactly three batches
of sizes 2, 2, 1, after which selection is empty. -/
theorem batchSizeBoundedAndDrain :
    (∀ (st : SyncState) (limit : Nat),
        (getPendingRecords st limit).length ≤ limit) ∧
    (getPendingRecords st5 2).length = 2 ∧
    (getPendingRecords st5b 2).length = 2 ∧
    (getPendingRecords st5c 2).length = 1 ∧
    getPendingRecords st5d 2 = [] := by
  refine ⟨fun st limit => ?_, by decide, by decide, by decide, by decide⟩
  simp only [getPendingRecords]
  exact List.length_take_le limit (sortByCreatedAt (st.queue.filter eligible))

/-- Claim C9: in a store whose rows have strictly ascending ids and
nondecreasing created_at in insertion order (both hold in every reachable
state, since ids are assigned by AUTOINCREMENT and created_at by the clock at
insertion), the selected batch is ordered by strictly ascending id: the
filter preserves insertion order, the stable sort by created_at is the
identity on a list already sorted by created_at, and the LIMIT prefix of an
ascending list is ascending. -/
theorem batchAscendingIds (st : SyncState) (limit : Nat)
    (hid : st.queue.Pairwise fun a b => a.id < b.id)
    (hts : st.queue.Pairwise fun a b => a.created_at ≤ b.created_at) :
    (getPendingRecords st limit).Pairwise fun a b => a.id < b.id := by
  have hfts := hts.filter eligible
  have hfid := hid.filter eligible
  rw [getPendingRecords, sortByCreatedAt_of_sorted _ hfts]
  exact List.Pairwise.sublist (List.take_sublist _ _) hfid

/-- Witness for claim C9 at the five-record store, where two pairs of rows
share a created_at instant. -/
theorem batchAscendingIdsWitness :
    (getPendingRecords st5 100).Pairwise fun a b => a.id < b.id :=
  batchAscendingIds st5 100 (by decide) (by decide)

/-- Claim C4 counterexample: the claim states that an explicit HTTP error
response from a reachable endpoint marks the batch failed but leaves isOnline
true. In the code the catch block of sendToCloud sets isOnline to false
before inspecting the error shape, so an HTTP 400 rejection of a one-record
batch from an online state marks the record failed AND flips isOnline to
false. -/
theorem remoteRejectionTripsBreakerCex :
    stOne.isOnline = true ∧
    (performSync stOne (TransportOutcome.httpError 400 (some "Bad Request")) 6).1.success
      = false ∧
    ((performSync stOne (TransportOutcome.httpError 400 (some "Bad Request")) 6).2.queue.map
      fun r => r.sync_status) = [SyncStatus.failed] ∧
    (performSync stOne (TransportOutcome.httpError 400 (some "Bad Request")) 6).2.isOnline
      = false := by
  decide

/-- Claim C4 amended: every unsuccessful transport outcome, a remote HTTP
rejection included, makes sendToCloud report failure and set isOnline to
false; the code does not distinguish connectivity failures from remote
rejections when tripping the breaker. -/
theorem transportErrorTripsBreaker (st : SyncState) (outcome : TransportOutcome)
    (h : outcome.isSuccess = false) :
    (sendToCloud st outcome).1.success = false ∧
    (sendToCloud st outcome).2.isOnline = false := by
  cases outcome <;> simp [sendToCloud, TransportOutcome.isSuccess] at h ⊢

/-- Witness for amended claim C4 at a concrete HTTP rejection. -/
theorem transportErrorTripsBreakerWitness :
    (sendToCloud stOne (TransportOutcome.httpError 400 (some "Bad Request"))).1.success
      = false ∧
    (sendToCloud stOne (TransportOutcome.httpError 400 (some "Bad Request"))).2.isOnline
      = false :=
  transportErrorTripsBreaker stOne (TransportOutcome.httpError 400 (some "Bad Request"))
    rfl

/-- Claim C5 counterexample: the claim states that a successful dispatch
while offline flips isOnline back to true. In the code the success path of
sendToCloud never touches isOnline (only the 30 second timer restores it),
so a dispatch from an offline state over five pending records that succeeds
still leaves isOnline false. -/
theorem offlineSuccessCex :
    ({ st5 with isOnline := false } : SyncState).isOnline = false ∧
    (performSync { st5 with isOnline := false } TransportOutcome.success 20).1.success
      = true ∧
    (performSync { st5 with isOnline := false } TransportOutcome.success 20).2.isOnline
      = false := by
  decide

/-- Claim C5 amended: a dispatch attempt whose transport outcome is
successful leaves isOnline exactly as it was, so a success while offline
does not restore the breaker; only the cooldown timer does. -/
theorem successLeavesBreakerUnchanged (st : SyncState) (outcome : TransportOutcome)
    (now : Nat) (h : outcome.isSuccess = true) :
    (performSync st outcome now).2.isOnline = st.isOnline := by
  cases outcome <;> simp only [TransportOutcome.isSuccess] at h
  · simp only [performSync, sendToCloud]
    split
    · rfl
    · split
      · rfl
      · simp [markRecordsSynced, logSync]
  · exact absurd h (by simp)
  · exact absurd h (by simp)
  · exact absurd h (by simp)

/-- Witness for amended claim C5 at a concrete offline state. -/
theorem successLeavesBreakerUnchangedWitness :
    (performSync { st5 with isOnline := false } TransportOutcome.success 20).2.isOnline =
      ({ st5 with isOnline := false } : SyncState).isOnline :=
  successLeavesBreakerUnchanged { st5 with isOnline := false }
    TransportOutcome.success 20 rfl

/-- Claim C6 counterexample: the claim states that an event whose kind is
empty is rejected with a validation error before any write. In the code
addToSyncQueue performs no such check: the falsy empty string is replaced by
the default activity and the insert succeeds, resolving with the fresh
rowid. -/
theorem emptyKindNotRejectedCex :
    (addToSyncQueue initialState 7 dEmptyKind).2 = Except.ok 1 ∧
    ((addToSyncQueue initialState 7 dEmptyKind).1.queue.map fun r => r.event_type) =
      ["activity"] :=
  ⟨rfl, by decide⟩

/-- Claim C6 amended: an event whose payload is not serializable is rejected
synchronously before any write, leaving the store completely unchanged; an
event whose kind is empty or missing is not rejected but inserted with the
kind defaulted to activity. -/
theorem enqueueValidation (st : SyncState) (now : Nat) (d : EventData) :
    (d.serializable = false →
      addToSyncQueue st now d =
        (st, Except.error "TypeError: payload is not serializable")) ∧
    (d.serializable = true → (d.eventType = none ∨ d.eventType = some "") →
      (addToSyncQueue st now d).2 = Except.ok st.nextId ∧
      (addToSyncQueue st now d).1.queue =
        st.queue ++
          [{ id := st.nextId, user_id := jsOr d.userId "system",
             event_type := "activity", data := d.serialized, timestamp := now,
             sync_status := SyncStatus.pending, retry_count := 0,
             created_at := now }]) := by
  constructor
  · intro h
    simp [addToSyncQueue, jsonStringify, h]
  · intro h hk
    rcases hk with hk | hk <;>
      simp [addToSyncQueue, jsonStringify, jsOr, h, hk]

/-- Witness for amended claim C6: a non-serializable payload is rejected
with the store unchanged, and an event with no kind is accepted. -/
theorem enqueueValidationWitness :
    addToSyncQueue initialState 7 dBad =
      (initialState, Except.error "TypeError: payload is not serializable") ∧
    (addToSyncQueue initialState 8 dDefaults).2 = Except.ok 1 :=
  ⟨(enqueueValidation initialState 7 dBad).1 rfl,
   ((enqueueValidation initialState 8 dDefaults).2 rfl (Or.inl rfl)).1⟩

/-- Claim C7: when performSync is entered idle, selects a nonempty batch and
the transport outcome is unsuccessful, the resulting queue is the old queue
with exactly the rows of the batch set to failed and their retry_count
incremented by exactly one, every other row untouched: the single UPDATE of
handleSyncFailure touches each matching row once, however large the batch. -/
theorem sendToCloud_queue (st : SyncState) (o : TransportOutcome) :
    (sendToCloud st o).2.queue = st.queue := by
  cases o <;> rfl

theorem sendToCloud_success_iff (st : SyncState) (o : TransportOutcome) :
    (sendToCloud st o).1.success = o.isSuccess := by
  cases o <;> rfl

theorem getPendingRecords_setFlag (st : SyncState) (b : Bool) (n : Nat) :
    getPendingRecords { st with syncInProgress := b } n = getPendingRecords st n :=
  rfl

theorem failureMarksBatch (st : SyncState) (outcome : TransportOutcome)
    (now : Nat) (h1 : st.syncInProgress = false)
    (h2 : outcome.isSuccess = false)
    (h3 : getPendingRecords st CLOUD_CONFIG.batchSize ≠ []) :
    (performSync st outcome now).2.queue =
      st.queue.map fun r =>
        if r.id ∈ (getPendingRecords st CLOUD_CONFIG.batchSize).map EventRecord.id then
          { r with sync_status := SyncStatus.failed,
                   retry_count := r.retry_count + 1 }
        else r := by
  simp only [performSync, getPendingRecords_setFlag]
  split
  · next hc => exact absurd hc (by simp [h1])
  · split
    · next hc => exact absurd (List.isEmpty_iff.mp hc) h3
    · split
      · next hc =>
          rw [sendToCloud_success_iff] at hc
          exact absurd hc (by simp [h2])
      · simp only [logSync, handleSyncFailure, sendToCloud_queue]

/-- Witness for claim C7: one enqueued record, a connectivity failure. -/
theorem failureMarksBatchWitness :
    (performSync stOne TransportOutcome.networkError 6).2.queue =
      stOne.queue.map fun r =>
        if r.id ∈ (getPendingRecords stOne CLOUD_CONFIG.batchSize).map EventRecord.id then
          { r with sync_status := SyncStatus.failed,
                   retry_count := r.retry_count + 1 }
        else r :=
  failureMarksBatch stOne TransportOutcome.networkError 6 rfl rfl (by decide)

/-- Mapping a per-row update that preserves user_id and event_type does not
change the projection of the queue to those two columns. -/
theorem map_proj_of_preserve (f : EventRecord → EventRecord)
    (hf : ∀ r, (f r).user_id = r.user_id ∧ (f r).event_type = r.event_type) :
    ∀ l : List EventRecord,
      ((l.map f).map fun r => (r.user_id, r.event_type)) =
        l.map fun r => (r.user_id, r.event_type)
  | [] => rfl
  | x :: xs => by
      simp only [List.map_cons, List.cons.injEq]
      exact ⟨by rw [(hf x).1, (hf x).2], map_proj_of_preserve f hf xs⟩

/-- performSync never changes the user_id and event_type columns of the
queue: both batch updates touch only sync_status and retry_count. -/
theorem performSync_queue_proj (st : SyncState) (outcome : TransportOutcome)
    (now : Nat) :
    ((performSync st outcome now).2.queue.map fun r => (r.user_id, r.event_type)) =
      st.queue.map fun r => (r.user_id, r.event_type) := by
  simp only [performSync]
  split
  · rfl
  · split
    · rfl
    · split
      · simp only [logSync, markRecordsSynced, sendToCloud_queue]
        apply map_proj_of_preserve
        intro r
        split <;> exact ⟨rfl, rfl⟩
      · simp only [logSync, handleSyncFailure, sendToCloud_queue]
        apply map_proj_of_preserve
        intro r
        split <;> exact ⟨rfl, rfl⟩

/-- Claim C10 counterexample: the claim quantifies over every enqueue input
with a missing ownerId or kind, but an input whose userId and type are both
absent and whose payload is not serializable is rejected: syncData reports
success false and the store is unchanged. -/
theorem missingFieldsBadPayloadCex :
    dBad.userId = none ∧ dBad.eventType = none ∧
    (syncData initialState 7 dBad TransportOutcome.success).1.success = false ∧
    (syncData initialState 7 dBad TransportOutcome.success).2 = initialState := by
  decide

/-- Claim C10 amended: for every enqueue input whose payload is serializable
and whose ownerId or kind is missing, syncData reports success and inserts
one record whose ownerId and kind columns are the JavaScript falsy defaults,
which are system and activity respectively when the field is absent; the
immediate dispatch that may follow never alters those two columns. -/
theorem syncDataDefaults (st : SyncState) (now : Nat) (d : EventData)
    (outcome : TransportOutcome) (hs : d.serializable = true)
    (_h : d.userId = none ∨ d.eventType = none) :
    (syncData st now d outcome).1 =
      { success := true, queued := true, error := none } ∧
    ((syncData st now d outcome).2.queue.map fun r => (r.user_id, r.event_type)) =
      (st.queue.map fun r => (r.user_id, r.event_type)) ++
        [(jsOr d.userId "system", jsOr d.eventType "activity")] ∧
    (d.userId = none → jsOr d.userId "system" = "system") ∧
    (d.eventType = none → jsOr d.eventType "activity" = "activity") := by
  refine ⟨?_, ?_, fun hu => by rw [hu]; rfl, fun hk => by rw [hk]; rfl⟩
  · simp only [syncData, addToSyncQueue, jsonStringify, hs, if_true]
  · simp only [syncData, addToSyncQueue, jsonStringify, hs, if_true]
    split
    · rw [performSync_queue_proj]
      simp
    · simp

/-- Witness for amended claim C10: a fresh manager, both fields missing. -/
theorem syncDataDefaultsWitness :
    (syncData initialState 7 dDefaults TransportOutcome.success).1 =
      { success := true, queued := true, error := none } ∧
    ((syncData initialState 7 dDefaults TransportOutcome.success).2.queue.map
      fun r => (r.user_id, r.event_type)) =
      (initialState.queue.map fun r => (r.user_id, r.event_type)) ++
        [(jsOr dDefaults.userId "system", jsOr dDefaults.eventType "activity")] ∧
    (dDefaults.userId = none → jsOr dDefaults.userId "system" = "system") ∧
    (dDefaults.eventType = none → jsOr dDefaults.eventType "activity" = "activity") :=
  syncDataDefaults initialState 7 dDefaults TransportOutcome.success rfl (Or.inl rfl)

end CloudSync


